import Mathlib

/-!
Shallow embedding of the AudienceForcaster repository (a streamlit audience
analytics dashboard) and proofs about the claims of its specification.

Numeric values are modelled by `ℚ` (the python code computes with IEEE
floats; the claims under study are exact identities, so exact rational
arithmetic is the faithful idealisation).  A float result that numpy or
sklearn would render as inf or NaN, or a library call that would raise, is
modelled by `none` / an error value, as noted at each definition.
-/

namespace AudienceForecaster

/-- Arithmetic mean of a list of rationals, as numpy's `np.mean` computes it
on a nonempty array.  Callers below only apply it to nonempty lists (numpy
would give NaN on an empty one). -/
def npMean (l : List ℚ) : ℚ := l.sum / l.length

/-- Metrics bundle returned by `TimeSeriesModels.calculate_metrics`
(src/time_series.py lines 80-85).  Square roots are irrational in general,
so the root-mean-squared error is carried as its square: RMSE = √RMSE_sq,
and since √x = 0 exactly when x = 0 for x ≥ 0, RMSE = 0 iff RMSE_sq = 0.
A value that float arithmetic would render as inf or NaN is `none`. -/
structure MetricsBundle where
  RMSE_sq : ℚ
  MAE : ℚ
  MAPE : Option ℚ
  R2 : Option ℚ
deriving DecidableEq

/-- sklearn.metrics.mean_squared_error: the mean of the squared elementwise
differences (src/time_series.py line 75 takes its square root). -/
def mean_squared_error (actual predicted : List ℚ) : ℚ :=
  npMean ((actual.zip predicted).map (fun ap => (ap.1 - ap.2) ^ 2))

/-- sklearn.metrics.mean_absolute_error: the mean of the absolute
elementwise differences (src/time_series.py line 76). -/
def mean_absolute_error (actual predicted : List ℚ) : ℚ :=
  npMean ((actual.zip predicted).map (fun ap => |ap.1 - ap.2|))

/-- np.mean(np.abs((actual - predicted) / actual)) * 100, src/time_series.py
line 77.  When some actual value is exactly zero the elementwise float
division yields inf (or NaN for 0/0), the absolute values are nonnegative so
the mean is inf or NaN as well: the result is non-finite, modelled `none`. -/
def mapeOpt (actual predicted : List ℚ) : Option ℚ :=
  if ∃ a ∈ actual, a = 0 then none
  else some (npMean ((actual.zip predicted).map (fun ap => |(ap.1 - ap.2) / ap.1|)) * 100)

/-- sklearn.metrics.r2_score (src/time_series.py line 78).  With fewer than
two samples sklearn warns and returns NaN (`none`).  With a constant actual
series the total sum of squares is zero and sklearn returns 1 when the
residual sum is also zero, else 0.  Otherwise it is 1 - ssRes / ssTot. -/
def r2_score (actual predicted : List ℚ) : Option ℚ :=
  if actual.length < 2 then none
  else
    let ssRes := ((actual.zip predicted).map (fun ap => (ap.1 - ap.2) ^ 2)).sum
    let ssTot := (actual.map (fun a => (a - npMean actual) ^ 2)).sum
    if ssTot = 0 then (if ssRes = 0 then some 1 else some 0)
    else some (1 - ssRes / ssTot)

/-- TimeSeriesModels.calculate_metrics (src/time_series.py lines 73-85).
sklearn raises a ValueError on arrays of mismatched lengths or on empty
arrays; the whole call failing is modelled by `none`. -/
def calculate_metrics (actual predicted : List ℚ) : Option MetricsBundle :=
  if actual.length = predicted.length ∧ actual.length ≠ 0 then
    some { RMSE_sq := mean_squared_error actual predicted,
           MAE := mean_absolute_error actual predicted,
           MAPE := mapeOpt actual predicted,
           R2 := r2_score actual predicted }
  else none

/-- Modeling frame handed to the forecast engine: the timestamp index
(calendar days as integers) and the audience_count column - the only parts
of the frame that train_model reads (src/time_series.py lines 28-57). -/
structure ModelingFrame where
  index : List ℤ
  audience_count : List ℚ

/-- Fitted-model handle held by the engine.  An ARIMA or SARIMA fit is
summarised by its step-ahead point-forecast function: statsmodels'
fitted results expose .forecast(steps=n), the forecasts for steps 1..n.
A Prophet fit stores the training dates it was fit on (its history) and a
per-date prediction yhat: make_future_dataframe extends the stored history
and predict maps each date of the future frame to its yhat. -/
inductive FittedModel where
  | arima (fc : ℕ → ℚ)
  | sarima (fc : ℕ → ℚ)
  | prophet (history : List ℤ) (yhat : ℤ → ℚ)

/-- Library fitting oracles.  The numerics of the three backends
(statsmodels ARIMA(2,1,2), SARIMAX order (1,1,1) seasonal (1,1,1,24), and
prophet with yearly/weekly/daily seasonality) live outside the repository;
each fit is modelled as an arbitrary function from the training data the
code passes it to the fitted predictor, so the theorems below hold
whatever those libraries compute.  ARIMA and SARIMA are fit on the
audience_count series only; Prophet on (index, audience_count). -/
structure Backends where
  arimaFit : List ℚ → ℕ → ℚ
  sarimaFit : List ℚ → ℕ → ℚ
  prophetFit : List ℤ → List ℚ → ℤ → ℚ

/-- Engine state: TimeSeriesModels.__init__ (src/time_series.py lines
11-13) sets self.model and self.model_type to None. -/
structure TimeSeriesModels where
  model : Option FittedModel
  model_type : Option String

/-- Freshly constructed engine. -/
def TimeSeriesModels.init : TimeSeriesModels :=
  { model := none, model_type := none }

/-- Errors the engine can raise: ValueError "Unsupported model type"
(train_model line 26) and ValueError "Model not trained" (get_forecast
line 62).  attributeError models python calling a method the held object
lacks; no path reachable from the repository's call sites exercises it. -/
inductive TSError where
  | unsupportedModel (s : String)
  | notTrained
  | attributeError
deriving DecidableEq

/-- TimeSeriesModels.train_model (src/time_series.py lines 15-26): records
self.model_type := the requested string first (line 17), then dispatches
on it; an unsupported string raises ValueError with the held model left
unchanged.  The library fits are total here: fit-time exceptions raised
inside the backends are outside this model. -/
def train_model (B : Backends) (s : TimeSeriesModels) (df : ModelingFrame)
    (model_type : String) : TimeSeriesModels × Except TSError FittedModel :=
  let s1 : TimeSeriesModels := { s with model_type := some model_type }
  if model_type = "ARIMA" then
    let m := FittedModel.arima (B.arimaFit df.audience_count)
    ({ s1 with model := some m }, .ok m)
  else if model_type = "SARIMA" then
    let m := FittedModel.sarima (B.sarimaFit df.audience_count)
    ({ s1 with model := some m }, .ok m)
  else if model_type = "Prophet" then
    let m := FittedModel.prophet df.index (B.prophetFit df.index df.audience_count)
    ({ s1 with model := some m }, .ok m)
  else
    (s1, .error (.unsupportedModel model_type))

/-- Last n rows of a frame column, pandas DataFrame.tail(n). -/
def tailN (n : ℕ) (l : List ℚ) : List ℚ := l.drop (l.length - n)

/-- Prophet's make_future_dataframe(periods) with its default
include_history=True: the stored training dates followed by periods
consecutive days starting the day after the last stored date. -/
def make_future_dataframe (history : List ℤ) (periods : ℕ) : List ℤ :=
  history ++ (List.range periods).map (fun i : ℕ => history.getLastD 0 + 1 + (i : ℤ))

/-- TimeSeriesModels.get_forecast (src/time_series.py lines 59-71): raises
when no model is held; for ARIMA/SARIMA returns the periods step-ahead
point forecasts; for Prophet predicts over the extended future frame and
keeps the trailing periods yhat values.  When model_type matches no branch
the python function falls through and returns None, modelled as the Ok
payload `none`. -/
def get_forecast (s : TimeSeriesModels) (periods : ℕ) :
    Except TSError (Option (List ℚ)) :=
  match s.model with
  | none => .error .notTrained
  | some m =>
    if s.model_type = some "ARIMA" ∨ s.model_type = some "SARIMA" then
      match m with
      | .arima fc => .ok (some ((List.range periods).map (fun i => fc (i + 1))))
      | .sarima fc => .ok (some ((List.range periods).map (fun i => fc (i + 1))))
      | .prophet _ _ => .error .attributeError
    else if s.model_type = some "Prophet" then
      match m with
      | .prophet history yhat =>
          .ok (some (tailN periods ((make_future_dataframe history periods).map yhat)))
      | .arima _ => .error .attributeError
      | .sarima _ => .error .attributeError
    else
      .ok none

/-- pd.date_range(start, periods) at its default daily frequency: periods
consecutive days counting from start. -/
def date_range (start : ℤ) (periods : ℕ) : List ℤ :=
  (List.range periods).map (fun i : ℕ => start + (i : ℤ))

/-- Download frame built at src/app.py lines 196-203: each row pairs a
timestamp from a daily date_range starting the day after the modeling
frame's last index entry with the forecast value of the same rank. -/
def forecast_df (modelingIndex : List ℤ) (forecastVals : List ℚ)
    (periods : ℕ) : List (ℤ × ℚ) :=
  (date_range (modelingIndex.getLastD 0 + 1) periods).zip forecastVals

/-- Raw tabular input as pandas holds it right after read_csv: a header of
column names and rows of cells (CSV cells, kept as unparsed strings). -/
structure PandasDF where
  cols : List String
  rows : List (List String)
deriving DecidableEq

/-- column_mapping dict of DataProcessor.load_data (src/data_processor.py
lines 18-22). -/
def column_mapping : List (String × String) :=
  [("Date", "timestamp"), ("AudienceCount", "audience_count"),
   ("Platform", "platform")]

/-- df.rename(columns=column_mapping) on one column name: a name in the
mapping is replaced by its image, any other name is kept. -/
def renameCol (c : String) : String := (column_mapping.lookup c).getD c

/-- Required input columns of load_data (src/data_processor.py line 25). -/
def required_columns : List String := ["Date", "AudienceCount", "Platform"]

/-- DataProcessor.load_data (src/data_processor.py lines 12-34) after csv
parsing: checks that the three required columns are all present, raising a
ValueError (the SchemaError of the spec) otherwise, then renames them to
the canonical internal names; the surrounding try/except merely re-wraps
the message. -/
def load_data (df : PandasDF) : Except String PandasDF :=
  if ∀ c ∈ required_columns, c ∈ df.cols then
    .ok { cols := df.cols.map renameCol, rows := df.rows }
  else
    .error "Missing required columns"

/-- Observation row extracted from the validated table: the raw timestamp
cell, the platform label, and the four-column numeric block that
DataProcessor.preprocess_data imputes over; a `none` numeric is a missing
value (NaN). -/
structure RawRow where
  timestamp : String
  platform : String
  audience_count : Option ℚ
  EngagementRate : Option ℚ
  ConversionRate : Option ℚ
  ForecastError : Option ℚ
deriving DecidableEq

/-- Row after pd.to_datetime: the timestamp has become a point in time,
modelled as an integer ordered the way the dates are. -/
structure ParsedRow where
  timestamp : ℤ
  platform : String
  audience_count : Option ℚ
  EngagementRate : Option ℚ
  ConversionRate : Option ℚ
  ForecastError : Option ℚ
deriving DecidableEq

/-- Fully preprocessed row, with the numeric block imputed and the
calendar features of src/data_processor.py lines 49-53 attached. -/
structure ProcRow where
  timestamp : ℤ
  platform : String
  audience_count : ℚ
  EngagementRate : ℚ
  ConversionRate : ℚ
  ForecastError : ℚ
  hour : ℤ
  day_of_week : ℤ
  month : ℤ
  is_weekend : ℤ
  is_prime_time : ℤ
deriving DecidableEq

/-- Calendar accessors pandas provides on a datetime series (Series.dt.hour
/ .dayofweek / .month): library functions of the timestamp, taken as
parameters. -/
structure CalendarLib where
  hour : ℤ → ℤ
  dayofweek : ℤ → ℤ
  month : ℤ → ℤ

/-- pd.to_datetime applied to one row (src/data_processor.py line 39); the
date parsing itself is the library's, taken as the parameter parse. -/
def parseRow (parse : String → ℤ) (r : RawRow) : ParsedRow :=
  { timestamp := parse r.timestamp, platform := r.platform,
    audience_count := r.audience_count, EngagementRate := r.EngagementRate,
    ConversionRate := r.ConversionRate, ForecastError := r.ForecastError }

/-- df.sort_values('timestamp') (src/data_processor.py line 42): ascending
sort on the timestamp column. -/
def sortByTimestamp (l : List ParsedRow) : List ParsedRow :=
  List.insertionSort (fun a b => a.timestamp ≤ b.timestamp) l

/-- Numeric block row handed to the KNN imputer, in the column order of
src/data_processor.py line 45. -/
def numericBlock (r : ParsedRow) : List (Option ℚ) :=
  [r.audience_count, r.EngagementRate, r.ConversionRate, r.ForecastError]

/-- Reassembly of one output row from a sorted row and its imputed numeric
block (positional assignment of the imputer output back into the frame),
plus the calendar features: is_weekend is 1 iff the day of week is 5 or 6,
is_prime_time is 1 iff the hour lies in [19, 22]. -/
def procOfZip (cal : CalendarLib) (ri : ParsedRow × List ℚ) : ProcRow :=
  { timestamp := ri.1.timestamp, platform := ri.1.platform,
    audience_count := ri.2.getD 0 0, EngagementRate := ri.2.getD 1 0,
    ConversionRate := ri.2.getD 2 0, ForecastError := ri.2.getD 3 0,
    hour := cal.hour ri.1.timestamp,
    day_of_week := cal.dayofweek ri.1.timestamp,
    month := cal.month ri.1.timestamp,
    is_weekend := if cal.dayofweek ri.1.timestamp = 5 ∨
      cal.dayofweek ri.1.timestamp = 6 then 1 else 0,
    is_prime_time := if 19 ≤ cal.hour ri.1.timestamp ∧
      cal.hour ri.1.timestamp ≤ 22 then 1 else 0 }

/-- DataProcessor.preprocess_data (src/data_processor.py lines 36-55):
converts the timestamp column to datetimes, sorts ascending by timestamp,
imputes the numeric block in one fit_transform step
(KNNImputer(n_neighbors=5), a library transform taken as the parameter
impute, applied to the whole sorted block at once), and derives the
calendar features row by row. -/
def preprocess_data (parse : String → ℤ)
    (impute : List (List (Option ℚ)) → List (List ℚ)) (cal : CalendarLib)
    (rows : List RawRow) : List ProcRow :=
  ((sortByTimestamp (rows.map (parseRow parse))).zip
    (impute ((sortByTimestamp (rows.map (parseRow parse))).map numericBlock))).map
    (procOfZip cal)

/-- Extraction of the typed observation rows from the validated frame,
reading each column by its canonical post-rename name; numeric cell
parsing is the library's, taken as the parameter parseNum.  Glue between
the generic frame and the typed rows. -/
def toRawRows (parseNum : String → Option ℚ) (df : PandasDF) : List RawRow :=
  df.rows.map (fun row =>
    { timestamp := row.getD (df.cols.indexOf "timestamp") "",
      platform := row.getD (df.cols.indexOf "platform") "",
      audience_count := parseNum (row.getD (df.cols.indexOf "audience_count") ""),
      EngagementRate := parseNum (row.getD (df.cols.indexOf "EngagementRate") ""),
      ConversionRate := parseNum (row.getD (df.cols.indexOf "ConversionRate") ""),
      ForecastError := parseNum (row.getD (df.cols.indexOf "ForecastError") "") })

/-- Trailing window of up to 7 samples ending at position i of a series:
the window pandas rolling(7, min_periods=1) evaluates at row i. -/
def window7 (xs : List ℚ) (i : ℕ) : List ℚ :=
  (xs.take (i + 1)).drop (i + 1 - 7)

/-- Sample variance (ddof = 1) of a window: the square of the rolling
standard deviation pandas computes at src/data_processor.py lines 63-65.
A single-sample window divides zero by zero, so its float std is NaN,
modelled `none`.  The std itself is the square root of this value; the
root of a nonnegative rational is zero exactly when the rational is zero,
so std = 0 holds iff this field is some 0 and std is missing iff it is
none. -/
def sampleVarOpt (l : List ℚ) : Option ℚ :=
  if l.length < 2 then none
  else some ((l.map (fun x => (x - npMean l) ^ 2)).sum / ((l.length : ℚ) - 1))

/-- Featured row produced by DataProcessor.engineer_features
(src/data_processor.py lines 57-73): the base row plus the rolling
statistics (audience_7day_std carried as its square, see sampleVarOpt),
the engagement score and the categorical platform code. -/
structure FRow where
  base : ProcRow
  audience_7day_mean : ℚ
  audience_7day_std_sq : Option ℚ
  engagement_score : ℚ
  platform_encoded : ℤ
deriving DecidableEq

/-- audience_count series of one platform group in original row order
(pandas groupby keeps rows in frame order within each group). -/
def groupSeries (rows : List ProcRow) (p : String) : List ℚ :=
  (rows.filter (fun r => decide (r.platform = p))).map (fun r => r.audience_count)

/-- Position of row i inside its platform group: the number of earlier
rows of the same platform. -/
def groupPos (rows : List ProcRow) (i : ℕ) (p : String) : ℕ :=
  ((rows.take i).filter (fun r => decide (r.platform = p))).length

/-- Sorted distinct platform labels: the categories pd.Categorical assigns
its integer codes by. -/
def platformCategories (rows : List ProcRow) : List String :=
  List.insertionSort (fun a b => a ≤ b) (rows.map (fun r => r.platform)).dedup

/-- DataProcessor.engineer_features (src/data_processor.py lines 57-73):
per-platform trailing 7-sample rolling mean and standard deviation of
audience_count (window 7, min_periods 1), engagement_score =
EngagementRate * ConversionRate, and the categorical platform code. -/
def engineer_features (rows : List ProcRow) : List FRow :=
  rows.enum.map (fun ir =>
    { base := ir.2,
      audience_7day_mean :=
        npMean (window7 (groupSeries rows ir.2.platform)
          (groupPos rows ir.1 ir.2.platform)),
      audience_7day_std_sq :=
        sampleVarOpt (window7 (groupSeries rows ir.2.platform)
          (groupPos rows ir.1 ir.2.platform)),
      engagement_score := ir.2.EngagementRate * ir.2.ConversionRate,
      platform_encoded :=
        ((platformCategories rows).indexOf ir.2.platform : ℤ) })

/-- Zipping a list with itself and mapping is mapping the diagonal. -/
theorem zip_self_map (a : List ℚ) (f : ℚ × ℚ → ℚ) :
    (a.zip a).map f = a.map (fun x => f (x, x)) := by
  induction a with
  | nil => rfl
  | cons x xs ih => simp [List.zip_cons_cons, ih]

/-- npMean of a list of zeros is zero. -/
theorem npMean_zero (a : List ℚ) (h : ∀ x ∈ a, x = 0) : npMean a = 0 := by
  unfold npMean
  rw [List.sum_eq_zero h, zero_div]

/-- Squared differences of a list against itself sum to zero. -/
theorem mean_squared_error_self (a : List ℚ) : mean_squared_error a a = 0 := by
  unfold mean_squared_error
  rw [zip_self_map]
  apply npMean_zero
  intro x hx
  obtain ⟨y, _, rfl⟩ := List.mem_map.mp hx
  ring

/-- Absolute differences of a list against itself average to zero. -/
theorem mean_absolute_error_self (a : List ℚ) : mean_absolute_error a a = 0 := by
  unfold mean_absolute_error
  rw [zip_self_map]
  apply npMean_zero
  intro x hx
  obtain ⟨y, _, rfl⟩ := List.mem_map.mp hx
  simp

/-- MAPE of a list against itself is zero when no entry is zero. -/
theorem mapeOpt_self (a : List ℚ) (hz : ∀ x ∈ a, x ≠ 0) : mapeOpt a a = some 0 := by
  unfold mapeOpt
  rw [if_neg (by push_neg; exact hz)]
  rw [zip_self_map]
  have h0 : npMean (a.map (fun x => |(x - x) / x|)) = 0 := by
    apply npMean_zero
    intro x hx
    obtain ⟨y, _, rfl⟩ := List.mem_map.mp hx
    simp
  rw [h0, zero_mul]

/-- R² of a list against itself is one when there are at least two samples. -/
theorem r2_score_self (a : List ℚ) (h2 : 2 ≤ a.length) : r2_score a a = some 1 := by
  have hres : ((a.zip a).map (fun ap => (ap.1 - ap.2) ^ 2)).sum = 0 := by
    rw [zip_self_map]
    apply List.sum_eq_zero
    intro x hx
    obtain ⟨y, _, rfl⟩ := List.mem_map.mp hx
    ring
  unfold r2_score
  rw [if_neg (by omega)]
  simp only [hres]
  split
  · simp
  · rw [zero_div, sub_zero]

/-- C2 (amended): calculate_metrics on a pair of elementwise-identical
arrays of length at least two, all of whose actual values are nonzero,
yields RMSE = 0 (its square is 0), MAE = 0, MAPE = 0 and R² = 1. -/
theorem C2_metrics_on_identical (a : List ℚ) (h2 : 2 ≤ a.length)
    (hz : ∀ x ∈ a, x ≠ 0) :
    calculate_metrics a a =
      some { RMSE_sq := 0, MAE := 0, MAPE := some 0, R2 := some 1 } := by
  unfold calculate_metrics
  rw [if_pos ⟨rfl, by omega⟩, mean_squared_error_self, mean_absolute_error_self,
    mapeOpt_self a hz, r2_score_self a h2]

/-- C2 witness: the amended statement at the concrete input [1, 2]. -/
theorem C2_metrics_on_identical_witness :
    2 ≤ ([1, 2] : List ℚ).length ∧ (∀ x ∈ ([1, 2] : List ℚ), x ≠ 0) ∧
      calculate_metrics [1, 2] [1, 2] =
        some { RMSE_sq := 0, MAE := 0, MAPE := some 0, R2 := some 1 } :=
  ⟨by decide, by decide, C2_metrics_on_identical [1, 2] (by decide) (by decide)⟩

/-- C2 counterexample: on the identical pair actual = predicted = [0] the
call succeeds but MAPE is NaN (0/0), not 0, and R² is NaN (a single
sample), not 1 - refuting the claim for every identical equal-length pair. -/
theorem C2_counterexample :
    (calculate_metrics [0] [0]).map MetricsBundle.MAPE = some none ∧
    (calculate_metrics [0] [0]).map MetricsBundle.R2 = some none := by
  decide

/-- C6: calculate_metrics computes MAPE by elementwise division by the
actual values with no special-casing, so whenever some actual value is
exactly zero the call fails (mismatched or empty arrays) or the returned
bundle's MAPE is non-finite (inf or NaN, modelled `none`). -/
theorem C6_mape_zero_actual (actual predicted : List ℚ)
    (h : ∃ a ∈ actual, a = 0) :
    calculate_metrics actual predicted = none ∨
      ∃ b, calculate_metrics actual predicted = some b ∧ b.MAPE = none := by
  unfold calculate_metrics
  split
  · right
    refine ⟨_, rfl, ?_⟩
    show mapeOpt actual predicted = none
    unfold mapeOpt
    rw [if_pos h]
  · left
    rfl

/-- C6 witness: the statement at actual = [0, 1], predicted = [2, 3]. -/
theorem C6_mape_zero_actual_witness :
    (∃ a ∈ ([0, 1] : List ℚ), a = 0) ∧
      (calculate_metrics [0, 1] [2, 3] = none ∨
        ∃ b, calculate_metrics [0, 1] [2, 3] = some b ∧ b.MAPE = none) :=
  ⟨⟨0, by decide, rfl⟩, C6_mape_zero_actual [0, 1] [2, 3] ⟨0, by decide, rfl⟩⟩

/-- Length of a pandas tail. -/
theorem tailN_length (n : ℕ) (l : List ℚ) :
    (tailN n l).length = l.length - (l.length - n) := by
  unfold tailN
  rw [List.length_drop]

/-- Every successful get_forecast that produces a sequence produces exactly
periods values, whichever backend the state holds. -/
theorem get_forecast_ok_length (s : TimeSeriesModels) (periods : ℕ)
    (fc : List ℚ) (h : get_forecast s periods = .ok (some fc)) :
    fc.length = periods := by
  obtain ⟨om, omt⟩ := s
  cases om with
  | none => simp [get_forecast] at h
  | some m =>
    simp only [get_forecast] at h
    split at h
    · cases m with
      | arima f =>
        simp only [Except.ok.injEq, Option.some.injEq] at h
        rw [← h, List.length_map, List.length_range]
      | sarima f =>
        simp only [Except.ok.injEq, Option.some.injEq] at h
        rw [← h, List.length_map, List.length_range]
      | prophet history yhat => simp at h
    · split at h
      · cases m with
        | arima f => simp at h
        | sarima f => simp at h
        | prophet history yhat =>
          simp only [Except.ok.injEq, Option.some.injEq] at h
          rw [← h, tailN_length, List.length_map]
          unfold make_future_dataframe
          rw [List.length_append, List.length_map, List.length_range]
          omega
      · simp at h

/-- C3: for every supported model type, every horizon N in {1, 7, 30, 90},
every prior engine state, every modeling frame and every backend numerics,
training and then forecasting N periods returns exactly N values. -/
theorem C3_forecast_length (B : Backends) (s : TimeSeriesModels)
    (df : ModelingFrame) (mt : String) (N : ℕ)
    (hmt : mt ∈ ["ARIMA", "SARIMA", "Prophet"]) (_hN : N ∈ [1, 7, 30, 90]) :
    ∃ fc, get_forecast (train_model B s df mt).1 N = .ok (some fc) ∧
      fc.length = N := by
  simp only [List.mem_cons, List.not_mem_nil, or_false] at hmt
  rcases hmt with rfl | rfl | rfl
  · exact ⟨(List.range N).map (fun i => B.arimaFit df.audience_count (i + 1)),
      rfl, by rw [List.length_map, List.length_range]⟩
  · exact ⟨(List.range N).map (fun i => B.sarimaFit df.audience_count (i + 1)),
      rfl, by rw [List.length_map, List.length_range]⟩
  · refine ⟨tailN N ((make_future_dataframe df.index N).map
      (B.prophetFit df.index df.audience_count)), rfl, ?_⟩
    rw [tailN_length, List.length_map]
    unfold make_future_dataframe
    rw [List.length_append, List.length_map, List.length_range]
    omega

/-- C3 witness: ARIMA with horizon 7, a trivial backend and an empty prior
engine. -/
theorem C3_forecast_length_witness :
    "ARIMA" ∈ ["ARIMA", "SARIMA", "Prophet"] ∧ 7 ∈ [1, 7, 30, 90] ∧
      ∃ fc, get_forecast
          (train_model ⟨fun _ _ => 0, fun _ _ => 0, fun _ _ _ => 0⟩
            TimeSeriesModels.init ⟨[], []⟩ "ARIMA").1 7 = .ok (some fc) ∧
        fc.length = 7 :=
  ⟨by decide, by decide,
    C3_forecast_length ⟨fun _ _ => 0, fun _ _ => 0, fun _ _ _ => 0⟩
      TimeSeriesModels.init ⟨[], []⟩ "ARIMA" 7 (by decide) (by decide)⟩

/-- C4: on any engine whose held model is None - in particular a freshly
constructed one, on which train has never succeeded - get_forecast raises
the not-trained ValueError, for every periods argument. -/
theorem C4_forecast_untrained (s : TimeSeriesModels) (periods : ℕ)
    (h : s.model = none) :
    get_forecast s periods = .error .notTrained := by
  unfold get_forecast
  rw [h]

/-- C4 witness: a fresh engine with periods = 5. -/
theorem C4_forecast_untrained_witness :
    TimeSeriesModels.init.model = none ∧
      get_forecast TimeSeriesModels.init 5 = .error .notTrained :=
  ⟨rfl, C4_forecast_untrained TimeSeriesModels.init 5 rfl⟩

/-- C5: train_model with any model-type string outside ARIMA, SARIMA,
Prophet raises the unsupported-model ValueError, for every modeling frame,
every prior engine state and every backend numerics. -/
theorem C5_train_unsupported (B : Backends) (s : TimeSeriesModels)
    (df : ModelingFrame) (mt : String)
    (h : mt ∉ ["ARIMA", "SARIMA", "Prophet"]) :
    (train_model B s df mt).2 = .error (.unsupportedModel mt) := by
  simp only [List.mem_cons, List.not_mem_nil, or_false, not_or] at h
  obtain ⟨h1, h2, h3⟩ := h
  unfold train_model
  rw [if_neg h1, if_neg h2, if_neg h3]

/-- C5 witness: the unsupported string "LSTM". -/
theorem C5_train_unsupported_witness :
    "LSTM" ∉ ["ARIMA", "SARIMA", "Prophet"] ∧
      (train_model ⟨fun _ _ => 0, fun _ _ => 0, fun _ _ _ => 0⟩
          TimeSeriesModels.init ⟨[], []⟩ "LSTM").2 =
        .error (.unsupportedModel "LSTM") :=
  ⟨by decide,
    C5_train_unsupported ⟨fun _ _ => 0, fun _ _ => 0, fun _ _ _ => 0⟩
      TimeSeriesModels.init ⟨[], []⟩ "LSTM" (by decide)⟩

/-- A held model together with a model_type matching none of the three
branches makes get_forecast fall off the end of the python function. -/
theorem get_forecast_fallthrough (m : FittedModel) (mt : String)
    (periods : ℕ) (h1 : mt ≠ "ARIMA") (h2 : mt ≠ "SARIMA")
    (h3 : mt ≠ "Prophet") :
    get_forecast ⟨some m, some mt⟩ periods = .ok none := by
  have c1 : ¬(some mt = some "ARIMA" ∨ some mt = some "SARIMA") := by
    simp [h1, h2]
  have c2 : ¬(some mt = some "Prophet") := by simp [h3]
  simp only [get_forecast]
  rw [if_neg c1, if_neg c2]

/-- C10: calling train_model with an unsupported string on an engine that
already holds a model records the unsupported string as model_type before
raising and leaves the held model unchanged; a subsequent get_forecast
call then matches no branch and returns python None (Ok none) instead of
raising or producing a sequence. -/
theorem C10_unsupported_retrain (B : Backends) (s : TimeSeriesModels)
    (df : ModelingFrame) (mt : String) (m : FittedModel)
    (hm : s.model = some m) (h : mt ∉ ["ARIMA", "SARIMA", "Prophet"]) :
    (train_model B s df mt).1.model_type = some mt ∧
    (train_model B s df mt).1.model = s.model ∧
    (train_model B s df mt).2 = .error (.unsupportedModel mt) ∧
    ∀ periods, get_forecast (train_model B s df mt).1 periods = .ok none := by
  simp only [List.mem_cons, List.not_mem_nil, or_false, not_or] at h
  obtain ⟨h1, h2, h3⟩ := h
  have htr : train_model B s df mt =
      ({ s with model_type := some mt }, .error (.unsupportedModel mt)) := by
    unfold train_model
    rw [if_neg h1, if_neg h2, if_neg h3]
  rw [htr]
  refine ⟨rfl, rfl, rfl, fun periods => ?_⟩
  show get_forecast ⟨s.model, some mt⟩ periods = .ok none
  rw [hm]
  exact get_forecast_fallthrough m mt periods h1 h2 h3

/-- C10 witness: an engine trained with ARIMA, retrained with "LSTM" and
then asked for a forecast of 5 periods. -/
theorem C10_unsupported_retrain_witness :
    (⟨some (.arima fun _ => 0), some "ARIMA"⟩ :
        TimeSeriesModels).model = some (.arima fun _ => 0) ∧
    "LSTM" ∉ ["ARIMA", "SARIMA", "Prophet"] ∧
    ((train_model ⟨fun _ _ => 0, fun _ _ => 0, fun _ _ _ => 0⟩
        ⟨some (.arima fun _ => 0), some "ARIMA"⟩ ⟨[], []⟩
        "LSTM").1.model_type = some "LSTM" ∧
      (train_model ⟨fun _ _ => 0, fun _ _ => 0, fun _ _ _ => 0⟩
        ⟨some (.arima fun _ => 0), some "ARIMA"⟩ ⟨[], []⟩
        "LSTM").1.model =
          (⟨some (.arima fun _ => 0), some "ARIMA"⟩ :
            TimeSeriesModels).model ∧
      (train_model ⟨fun _ _ => 0, fun _ _ => 0, fun _ _ _ => 0⟩
        ⟨some (.arima fun _ => 0), some "ARIMA"⟩ ⟨[], []⟩
        "LSTM").2 = .error (.unsupportedModel "LSTM") ∧
      ∀ periods, get_forecast (train_model ⟨fun _ _ => 0, fun _ _ => 0,
        fun _ _ _ => 0⟩ ⟨some (.arima fun _ => 0), some "ARIMA"⟩ ⟨[], []⟩
        "LSTM").1 periods = .ok none) :=
  ⟨rfl, by decide,
    C10_unsupported_retrain ⟨fun _ _ => 0, fun _ _ => 0, fun _ _ _ => 0⟩
      ⟨some (.arima fun _ => 0), some "ARIMA"⟩ ⟨[], []⟩ "LSTM"
      (.arima fun _ => 0) rfl (by decide)⟩

/-- C9: a successful forecast of horizon N yields a download frame of
exactly N rows whose timestamps are the N consecutive calendar days
starting the day after the modeling frame's last index entry, each row
paired in order with the corresponding predicted value. -/
theorem C9_forecast_output (s : TimeSeriesModels) (idx : List ℤ)
    (fc : List ℚ) (N : ℕ) (hidx : idx ≠ [])
    (h : get_forecast s N = .ok (some fc)) :
    (forecast_df idx fc N).length = N ∧
    (∀ i (hi : i < (forecast_df idx fc N).length),
      ((forecast_df idx fc N).get ⟨i, hi⟩).1 = idx.getLast hidx + 1 + i) ∧
    (forecast_df idx fc N).map Prod.snd = fc := by
  have hlen : fc.length = N := get_forecast_ok_length s N fc h
  have hdr : (date_range (idx.getLastD 0 + 1) N).length = N := by
    unfold date_range
    rw [List.length_map, List.length_range]
  have hlast : idx.getLastD 0 = idx.getLast hidx := by
    rw [List.getLastD_eq_getLast?, List.getLast?_eq_getLast idx hidx,
      Option.getD_some]
  refine ⟨?_, ?_, ?_⟩
  · unfold forecast_df
    rw [List.length_zip, hdr, hlen, min_self]
  · intro i hi
    unfold forecast_df at hi ⊢
    rw [List.get_eq_getElem, List.getElem_zip]
    simp only [date_range, List.getElem_map, List.getElem_range]
    rw [hlast]
  · unfold forecast_df
    exact List.map_snd_zip _ _ (by rw [hdr, hlen])

/-- C9 witness: a trained ARIMA engine whose constant forecast is 3, a
two-day modeling index and horizon 2. -/
theorem C9_forecast_output_witness :
    ([10, 11] : List ℤ) ≠ [] ∧
      get_forecast ⟨some (.arima fun _ => 3), some "ARIMA"⟩ 2 =
        .ok (some [3, 3]) ∧
      (forecast_df [10, 11] [3, 3] 2).length = 2 ∧
      (∀ i (hi : i < (forecast_df [10, 11] [3, 3] 2).length),
        ((forecast_df [10, 11] [3, 3] 2).get ⟨i, hi⟩).1 =
          ([10, 11] : List ℤ).getLast (by decide) + 1 + i) ∧
      (forecast_df [10, 11] [3, 3] 2).map Prod.snd = [3, 3] :=
  ⟨by decide, rfl,
    C9_forecast_output ⟨some (.arima fun _ => 3), some "ARIMA"⟩
      [10, 11] [3, 3] 2 (by decide) rfl⟩

/-- renameCol acts as the literal three-way substitution and keeps every
other name. -/
theorem renameCol_eq (c : String) :
    renameCol c = if c = "Date" then "timestamp"
      else if c = "AudienceCount" then "audience_count"
      else if c = "Platform" then "platform" else c := by
  unfold renameCol column_mapping
  by_cases h1 : c = "Date"
  · subst h1; rfl
  · by_cases h2 : c = "AudienceCount"
    · subst h2; rfl
    · by_cases h3 : c = "Platform"
      · subst h3; rfl
      · have e1 : (c == "Date") = false := beq_eq_false_iff_ne.mpr h1
        have e2 : (c == "AudienceCount") = false := beq_eq_false_iff_ne.mpr h2
        have e3 : (c == "Platform") = false := beq_eq_false_iff_ne.mpr h3
        simp [List.lookup, e1, e2, e3, h1, h2, h3]

/-- C7: load_data succeeds exactly when the columns Date, AudienceCount
and Platform are all present, and on success it returns the table
unchanged except that exactly those three column names are replaced by
timestamp, audience_count and platform. -/
theorem C7_load_schema (df : PandasDF) :
    ((∃ out, load_data df = .ok out) ↔
      ("Date" ∈ df.cols ∧ "AudienceCount" ∈ df.cols ∧ "Platform" ∈ df.cols)) ∧
    (∀ out, load_data df = .ok out →
      out.rows = df.rows ∧
      out.cols = df.cols.map (fun c =>
        if c = "Date" then "timestamp"
        else if c = "AudienceCount" then "audience_count"
        else if c = "Platform" then "platform" else c)) := by
  constructor
  · constructor
    · rintro ⟨out, hout⟩
      unfold load_data at hout
      split at hout
      · next hc =>
          exact ⟨hc _ (by simp [required_columns]),
            hc _ (by simp [required_columns]), hc _ (by simp [required_columns])⟩
      · exact absurd hout (by simp)
    · rintro ⟨h1, h2, h3⟩
      have hc : ∀ c ∈ required_columns, c ∈ df.cols := by
        intro c hcmem
        simp only [required_columns, List.mem_cons, List.not_mem_nil,
          or_false] at hcmem
        rcases hcmem with rfl | rfl | rfl
        · exact h1
        · exact h2
        · exact h3
      exact ⟨_, by unfold load_data; rw [if_pos hc]⟩
  · intro out hout
    unfold load_data at hout
    split at hout
    · cases hout
      refine ⟨rfl, ?_⟩
      show df.cols.map renameCol = _
      exact List.map_congr_left (fun c _ => renameCol_eq c)
    · exact absurd hout (by simp)

/-- C7 witness: a frame carrying the three required columns and one extra;
load succeeds, leaves the rows and the extra column name alone and renames
the three required names. -/
theorem C7_load_schema_witness :
    (∃ out, load_data
        ⟨["Date", "AudienceCount", "Platform", "EngagementRate"],
         [["1", "2", "Web", "3"]]⟩ = .ok out) ∧
    (load_data ⟨["Date", "AudienceCount", "Platform", "EngagementRate"],
        [["1", "2", "Web", "3"]]⟩ =
      .ok ⟨["timestamp", "audience_count", "platform", "EngagementRate"],
        [["1", "2", "Web", "3"]]⟩) ∧
    (⟨["timestamp", "audience_count", "platform", "EngagementRate"],
        [["1", "2", "Web", "3"]]⟩ : PandasDF).rows =
      (⟨["Date", "AudienceCount", "Platform", "EngagementRate"],
        [["1", "2", "Web", "3"]]⟩ : PandasDF).rows ∧
    (⟨["timestamp", "audience_count", "platform", "EngagementRate"],
        [["1", "2", "Web", "3"]]⟩ : PandasDF).cols =
      (⟨["Date", "AudienceCount", "Platform", "EngagementRate"],
        [["1", "2", "Web", "3"]]⟩ : PandasDF).cols.map (fun c =>
          if c = "Date" then "timestamp"
          else if c = "AudienceCount" then "audience_count"
          else if c = "Platform" then "platform" else c) :=
  ⟨(C7_load_schema _).1.mpr ⟨by decide, by decide, by decide⟩, rfl,
    ((C7_load_schema
        ⟨["Date", "AudienceCount", "Platform", "EngagementRate"],
         [["1", "2", "Web", "3"]]⟩).2
      ⟨["timestamp", "audience_count", "platform", "EngagementRate"],
       [["1", "2", "Web", "3"]]⟩ rfl).1,
    ((C7_load_schema
        ⟨["Date", "AudienceCount", "Platform", "EngagementRate"],
         [["1", "2", "Web", "3"]]⟩).2
      ⟨["timestamp", "audience_count", "platform", "EngagementRate"],
       [["1", "2", "Web", "3"]]⟩ rfl).2⟩

/-- First components of a zip form a sublist of the left operand. -/
theorem map_fst_zip_sublist {α β : Type} :
    ∀ (l1 : List α) (l2 : List β), ((l1.zip l2).map Prod.fst).Sublist l1
  | [], _ => by simp
  | _ :: _, [] => by simp
  | a :: t, _ :: u => by
    rw [List.zip_cons_cons, List.map_cons]
    exact List.Sublist.cons₂ a (map_fst_zip_sublist t u)

/-- sortByTimestamp really sorts: its output is pairwise non-decreasing in
the timestamp. -/
theorem sortByTimestamp_pairwise (l : List ParsedRow) :
    List.Pairwise (fun a b : ParsedRow => a.timestamp ≤ b.timestamp)
      (sortByTimestamp l) := by
  haveI : IsTotal ParsedRow (fun a b => a.timestamp ≤ b.timestamp) :=
    ⟨fun a b => Int.le_total a.timestamp b.timestamp⟩
  haveI : IsTrans ParsedRow (fun a b => a.timestamp ≤ b.timestamp) :=
    ⟨fun _ _ _ hab hbc => le_trans hab hbc⟩
  exact List.sorted_insertionSort _ l

/-- Rebuilding rows from a timestamp-sorted list zipped with any imputer
output keeps the timestamps non-decreasing. -/
theorem pairwise_ts_zip_map {β : Type} (S : List ParsedRow) (I : List β)
    (hs : List.Pairwise (fun a b : ParsedRow => a.timestamp ≤ b.timestamp) S)
    (g : ParsedRow × β → ProcRow)
    (hg : ∀ ri, (g ri).timestamp = ri.1.timestamp) :
    List.Pairwise (· ≤ ·)
      (((S.zip I).map g).map (fun r => r.timestamp)) := by
  rw [List.map_map]
  have hfst : List.Pairwise (fun a b : ParsedRow => a.timestamp ≤ b.timestamp)
      (List.map Prod.fst (S.zip I)) :=
    List.Pairwise.sublist (map_fst_zip_sublist S I) hs
  have hp : List.Pairwise
      (fun a b : ParsedRow × β => a.1.timestamp ≤ b.1.timestamp) (S.zip I) :=
    hfst.of_map Prod.fst (fun _ _ h => h)
  refine List.Pairwise.map _ ?_ hp
  intro a b hab
  simpa [Function.comp, hg] using hab

/-- C8: after load_data succeeds, the table preprocess_data produces is
sorted non-decreasing by its timestamp column, for every date parse,
imputer numerics and calendar accessors the libraries supply. -/
theorem C8_load_preprocess_sorted (df ldf : PandasDF)
    (parseNum : String → Option ℚ) (parse : String → ℤ)
    (impute : List (List (Option ℚ)) → List (List ℚ)) (cal : CalendarLib)
    (_h : load_data df = .ok ldf) :
    List.Pairwise (· ≤ ·)
      ((preprocess_data parse impute cal (toRawRows parseNum ldf)).map
        (fun r => r.timestamp)) := by
  unfold preprocess_data
  exact pairwise_ts_zip_map _ _ (sortByTimestamp_pairwise _) _ (fun _ => rfl)

/-- C8 witness: a three-row frame whose dates parse out of order; after
load and preprocess the timestamps come out sorted. -/
theorem C8_load_preprocess_sorted_witness :
    load_data ⟨["Date", "AudienceCount", "Platform"],
        [["d3", "1", "Web"], ["d1", "2", "Web"], ["d2", "3", "App"]]⟩ =
      .ok ⟨["timestamp", "audience_count", "platform"],
        [["d3", "1", "Web"], ["d1", "2", "Web"], ["d2", "3", "App"]]⟩ ∧
    List.Pairwise (· ≤ ·)
      ((preprocess_data
          (fun d => if d = "d1" then 1 else if d = "d2" then 2 else 3)
          (fun block => block.map (fun row => row.map (fun c => c.getD 0)))
          ⟨fun t => t % 24, fun t => t % 7, fun _ => 1⟩
          (toRawRows (fun c => some (c.toNat?.getD 0 : ℚ))
            ⟨["timestamp", "audience_count", "platform"],
             [["d3", "1", "Web"], ["d1", "2", "Web"], ["d2", "3", "App"]]⟩)).map
        (fun r => r.timestamp)) :=
  ⟨rfl,
    C8_load_preprocess_sorted
      ⟨["Date", "AudienceCount", "Platform"],
       [["d3", "1", "Web"], ["d1", "2", "Web"], ["d2", "3", "App"]]⟩
      ⟨["timestamp", "audience_count", "platform"],
       [["d3", "1", "Web"], ["d1", "2", "Web"], ["d2", "3", "App"]]⟩
      (fun c => some (c.toNat?.getD 0 : ℚ))
      (fun d => if d = "d1" then 1 else if d = "d2" then 2 else 3)
      (fun block => block.map (fun row => row.map (fun c => c.getD 0)))
      ⟨fun t => t % 24, fun t => t % 7, fun _ => 1⟩ rfl⟩

/-- npMean of a constant nonempty list is the constant. -/
theorem npMean_replicate (k : ℕ) (v : ℚ) (hk : k ≠ 0) :
    npMean (List.replicate k v) = v := by
  unfold npMean
  rw [List.sum_replicate, List.length_replicate, nsmul_eq_mul]
  exact mul_div_cancel_left₀ v (by exact_mod_cast hk)

/-- Sample variance of a constant window of at least two samples is 0. -/
theorem sampleVarOpt_replicate (k : ℕ) (v : ℚ) (hk : 2 ≤ k) :
    sampleVarOpt (List.replicate k v) = some 0 := by
  unfold sampleVarOpt
  rw [if_neg (by rw [List.length_replicate]; omega)]
  rw [List.map_replicate, npMean_replicate k v (by omega), sub_self,
    zero_pow (by norm_num : 2 ≠ 0), List.sum_replicate, smul_zero, zero_div]

/-- Rolling window at position i of a constant series. -/
theorem window7_replicate (n i : ℕ) (v : ℚ) (hi : i < n) :
    window7 (List.replicate n v) i =
      List.replicate (i + 1 - (i + 1 - 7)) v := by
  unfold window7
  rw [List.take_replicate, List.drop_replicate]
  congr 1
  omega

/-- On a single-platform table the platform group series is the whole
audience_count column. -/
theorem groupSeries_const (rows : List ProcRow) (p : String) (v : ℚ)
    (hp : ∀ r ∈ rows, r.platform = p)
    (hv : ∀ r ∈ rows, r.audience_count = v) :
    groupSeries rows p = List.replicate rows.length v := by
  unfold groupSeries
  rw [List.filter_eq_self.mpr (fun r hr => by simp [hp r hr])]
  have h : rows.map (fun r => r.audience_count) =
      List.replicate (rows.map (fun r => r.audience_count)).length v :=
    List.eq_replicate_of_mem (fun b hb => by
      obtain ⟨r, hr, rfl⟩ := List.mem_map.mp hb
      exact hv r hr)
  rw [h, List.length_map]

/-- On a single-platform table row i sits at position i of its group. -/
theorem groupPos_const (rows : List ProcRow) (p : String) (i : ℕ)
    (hp : ∀ r ∈ rows, r.platform = p) (hi : i ≤ rows.length) :
    groupPos rows i p = i := by
  unfold groupPos
  rw [List.filter_eq_self.mpr (fun r hr => by
    simp [hp r (List.mem_of_mem_take hr)]), List.length_take]
  omega

/-- C1 (amended): on a single-platform table with constant audience_count
v, engineer_features yields a rolling mean of v on every row and a rolling
standard deviation of 0 on every row except the first, whose single-sample
window leaves the std NaN (a missing value); the squared std carried by the
embedding is some 0 exactly where the std is 0 and none where it is NaN. -/
theorem C1_rolling_constant (rows : List ProcRow) (p : String) (v : ℚ)
    (hp : ∀ r ∈ rows, r.platform = p)
    (hv : ∀ r ∈ rows, r.audience_count = v)
    (i : ℕ) (hi : i < (engineer_features rows).length) :
    ((engineer_features rows).get ⟨i, hi⟩).audience_7day_mean = v ∧
    ((engineer_features rows).get ⟨i, hi⟩).audience_7day_std_sq =
      (if i = 0 then none else some 0) := by
  have hlen : (engineer_features rows).length = rows.length := by
    unfold engineer_features
    rw [List.length_map, List.enum_length]
  have hi2 : i < rows.length := by omega
  have hplat : (rows.get ⟨i, hi2⟩).platform = p :=
    hp _ (List.get_mem rows i hi2)
  rw [List.get_eq_getElem]
  unfold engineer_features
  rw [List.getElem_map, List.getElem_enum]
  dsimp only
  rw [List.get_eq_getElem] at hplat
  rw [hplat, groupSeries_const rows p v hp hv,
    groupPos_const rows p i hp (le_of_lt hi2),
    window7_replicate rows.length i v hi2]
  constructor
  · exact npMean_replicate _ v (by omega)
  · by_cases h0 : i = 0
    · subst h0
      rw [if_pos rfl]
      rfl
    · rw [if_neg h0, sampleVarOpt_replicate _ v (by omega)]

/-- Three-row single-platform constant table exercising the rolling
statistics. -/
def constRows : List ProcRow :=
  [{ timestamp := 0, platform := "Web", audience_count := 5,
     EngagementRate := 1, ConversionRate := 1, ForecastError := 0,
     hour := 0, day_of_week := 0, month := 1, is_weekend := 0,
     is_prime_time := 0 },
   { timestamp := 1, platform := "Web", audience_count := 5,
     EngagementRate := 1, ConversionRate := 1, ForecastError := 0,
     hour := 0, day_of_week := 1, month := 1, is_weekend := 0,
     is_prime_time := 0 },
   { timestamp := 2, platform := "Web", audience_count := 5,
     EngagementRate := 1, ConversionRate := 1, ForecastError := 0,
     hour := 0, day_of_week := 2, month := 1, is_weekend := 0,
     is_prime_time := 0 }]

/-- C1 witness: the amended statement at row 1 of the concrete table. -/
theorem C1_rolling_constant_witness :
    (∀ r ∈ constRows, r.platform = "Web") ∧
    (∀ r ∈ constRows, r.audience_count = 5) ∧
    ((engineer_features constRows).get ⟨1, by decide⟩).audience_7day_mean
      = 5 ∧
    ((engineer_features constRows).get ⟨1, by decide⟩).audience_7day_std_sq
      = (if 1 = 0 then none else some 0) :=
  ⟨by decide, by decide,
    (C1_rolling_constant constRows "Web" 5 (by decide) (by decide) 1
      (by decide)).1,
    (C1_rolling_constant constRows "Web" 5 (by decide) (by decide) 1
      (by decide)).2⟩

/-- C1 counterexample: on the constant single-platform table the first
row's rolling standard deviation is missing (NaN, its square is none), not
0 as the claim asserts for every row. -/
theorem C1_counterexample :
    ((engineer_features constRows).map
      (fun r => r.audience_7day_std_sq)).head? = some none ∧
    ((engineer_features constRows).map
      (fun r => r.audience_7day_std_sq)).head? ≠ some (some 0) := by
  constructor
  · decide
  · decide

end AudienceForecaster
